import Mathlib

/-!
Verification development for the ORBE arbiter swap-execution backend
(`server.js`, most defensive iteration, v3.9).  JavaScript numbers are
modelled as exact rationals; every concrete input used in a theorem is one
where the exact-rational result coincides with IEEE-754 double evaluation.
Chain RPC interactions are modelled by an environment (`ChainEnv`) giving
the result of each successive balance query, decimals query, transaction
submission and nonce resynchronisation, and an explicit effect state
(`ExecState`) records the nonce counter and every submission attempt.
-/

/-- Lower-cases the ASCII letters of a string.  Models the JavaScript
`String.prototype.toLowerCase` on the ASCII data used by the server
(addresses, provider error text). -/
def lowerStr (s : String) : String :=
  String.mk (s.toList.map Char.toLower)

/-- `strStartsWith s p` models the JavaScript `s.startsWith(p)` (and the
Lean core function of the same behaviour) by prefix comparison of the
character data. -/
def strStartsWith (s p : String) : Bool :=
  p.data.isPrefixOf s.data

/-- Splits a character list at every occurrence of `sep`; the list-level
semantics of splitting a string on a one-character separator. -/
def splitOnCharList (sep : Char) : List Char → List (List Char)
  | [] => [[]]
  | c :: rest =>
      match splitOnCharList sep rest with
      | [] => if c = sep then [[], []] else [[c]]
      | h :: t => if c = sep then [] :: h :: t else (c :: h) :: t

/-- Boolean test that `pat` occurs as a contiguous substring of the char
list `l`.  Models the JavaScript `String.prototype.includes`. -/
def listContains (pat : List Char) : List Char → Bool
  | [] => pat.isEmpty
  | c :: rest => pat.isPrefixOf (c :: rest) || listContains pat rest

/-- `containsStr s pat` models the JavaScript `s.includes(pat)`. -/
def containsStr (s pat : String) : Bool :=
  listContains pat.toList s.toList

/-- Value of a digit string read in base 10. -/
def digitsToNat (l : List Char) : Nat :=
  l.foldl (fun acc c => acc * 10 + (c.toNat - 48)) 0

/-- All characters are decimal digits (and the list is nonempty). -/
def allDigits (l : List Char) : Bool :=
  !l.isEmpty && l.all Char.isDigit

/-- Parses an unsigned decimal mantissa (`"12"`, `"12.5"`, `".5"`, `"12."`)
to an exact rational; `none` on anything else.  Models the mantissa part of
the ECMAScript numeric-literal grammar used by `parseFloat`/`Number`. -/
def parseUnsignedDec (l : List Char) : Option ℚ :=
  match splitOnCharList '.' l with
  | [i] => if allDigits i then some (digitsToNat i : ℚ) else none
  | [i, f] =>
      if (i.all Char.isDigit && f.all Char.isDigit
            && !(i.isEmpty && f.isEmpty)) then
        some ((digitsToNat i : ℚ) + (digitsToNat f : ℚ) / 10 ^ f.length)
      else none
  | _ => none

/-- Parses an optionally signed decimal-digit exponent to an integer. -/
def parseExpInt (l : List Char) : Option ℤ :=
  match l with
  | '-' :: rest => if allDigits rest then some (-(digitsToNat rest : ℤ)) else none
  | '+' :: rest => if allDigits rest then some (digitsToNat rest : ℤ) else none
  | _ => if allDigits l then some (digitsToNat l : ℤ) else none

/-- Scales a rational by a signed power of ten. -/
def scalePow10 (q : ℚ) (e : ℤ) : ℚ :=
  if e < 0 then q / 10 ^ e.natAbs else q * 10 ^ e.toNat

/-- Models the JavaScript `parseFloat` (equivalently `Number`) on strings
that consist entirely of a decimal or scientific numeric literal: an
optional sign, a decimal mantissa and an optional `e`/`E` exponent.
Returns `none` for NaN (invalid input).  The prefix-scanning behaviour of
`parseFloat` on trailing garbage is not needed by the server and is not
modelled. -/
def jsParseFloat (s : String) : Option ℚ :=
  let signed : ℚ × List Char :=
    match s.data with
    | '-' :: rest => ((-1 : ℚ), rest)
    | '+' :: rest => ((1 : ℚ), rest)
    | l => ((1 : ℚ), l)
  match splitOnCharList 'e' (signed.2.map Char.toLower) with
  | [m] => (parseUnsignedDec m).map (signed.1 * ·)
  | [m, ex] =>
      match parseUnsignedDec m, parseExpInt ex with
      | some q, some e => some (signed.1 * scalePow10 q e)
      | _, _ => none
  | _ => none

/-- Models `Number.prototype.toFixed n` at the value level: rounding to `n`
decimal places, ties away from zero towards positive infinity (the
ECMAScript "pick the larger n" rule). -/
def jsToFixed (q : ℚ) (n : Nat) : ℚ :=
  (⌊q * 10 ^ n + 1 / 2⌋ : ℚ) / 10 ^ n

/-- Truncation of a rational towards zero at `d` decimal places; this is the
value effect of slicing a fixed-point decimal string after `d` fractional
digits. -/
def ratTruncAt (q : ℚ) (d : Nat) : ℚ :=
  (if 0 ≤ q then (⌊q * 10 ^ d⌋ : ℚ) else (⌈q * 10 ^ d⌉ : ℚ)) / 10 ^ d

/-- Value of the string produced by the `formatAmount` helper of
`executeSwapLogic` (server.js v3.9, lines 613-621): falsy amounts render as
`"0"`; otherwise the amount is rendered with `toFixed (decimals + 18)` and
the string is sliced to keep only `decimals` fractional digits. -/
def formatAmountVal (amount : Option ℚ) (decimals : Nat) : ℚ :=
  match amount with
  | none => 0
  | some q => if q = 0 then 0 else ratTruncAt (jsToFixed q (decimals + 18)) decimals

/-- Integer minor units actually submitted for an amount: the
`formatAmount` output fed to `ethers.parseUnits` with the same precision
(exact, because the sliced string has at most `decimals` fractional
digits). -/
def toMinorUnits (amount : Option ℚ) (decimals : Nat) : ℤ :=
  ⌊formatAmountVal amount decimals * 10 ^ decimals⌋

/-- End-to-end conversion of a decimal-string amount to integer minor
units as the server performs it: `parseFloat`, then `formatAmount`, then
`parseUnits`.  `none` when the string is not a numeric literal. -/
def toMinorUnitsOfString (s : String) (decimals : Nat) : Option ℤ :=
  (jsParseFloat s).map (fun q => toMinorUnits (some q) decimals)

/-- The fields of an ethers v6 error object that `transferToken` inspects
when a submission fails. -/
structure JsError where
  message : String
  reason : String
  shortMessage : String
  code : String
  infoMsg : String
deriving DecidableEq, Repr

/-- Outcome of one transaction submission attempt (`sendTransaction` /
`contract.transfer` followed by `tx.wait(1)`): either a confirmed hash or a
thrown error (from the send or from the confirmation wait; both reach the
same catch block). -/
inductive SubmitOutcome where
  | ok (hash : String)
  | err (e : JsError)
deriving DecidableEq, Repr

/-- Responses of the RPC endpoint, indexed by how many calls of each kind
the current request has already made.  `txCount i` is the authoritative
network transaction count at the i-th resynchronisation query and
`txCountOk i` whether that query succeeds (the code swallows its
failures); `initCount` is the result of the initial nonce sync, `none`
when that query throws. -/
structure ChainEnv where
  balance : Nat → ℚ
  decimalsOf : Nat → Option Nat
  submit : Nat → SubmitOutcome
  txCount : Nat → Nat
  txCountOk : Nat → Bool
  initCount : Option Nat

/-- One logged submission attempt: the asset (token address, or `"native"`
for native-coin sends), the recipient, the integer minor units of the
transaction value, and the local nonce assigned to it. -/
structure Submission where
  token : String
  recipient : String
  amountMinor : ℤ
  nonceUsed : Nat
deriving DecidableEq, Repr

/-- Mutable effect state threaded through a request: the local nonce
counter (`currentNonce`), per-kind RPC call counters, and the log of all
submission attempts. -/
structure ExecState where
  nonce : Nat
  balCalls : Nat
  decCalls : Nat
  subCalls : Nat
  resyncCalls : Nat
  submissions : List Submission
deriving DecidableEq, Repr

/-- The wrapped-native token addresses treated as native at send time
(WBNB on BSC, WETH on Ethereum). -/
def wrappedNativeTokens : List String :=
  ["0xbb4cdb9cbd36b01bd1cbaebf2de08d9173bc095c",
   "0xc02aaa39b223fe8d0a0e5c4f27ead9083c756cc2"]

/-- The fixed treasury account address. -/
def treasuryAddress : String := "0xa433c78ebe278e4b84fec15fb235e86db889d52b"

/-- Token-address classification of `transferToken` (server.js v3.9,
lines 673-678): wrapped-native addresses, the symbols `BNB`/`ETH`, short
strings and the zero address are all sent as native coin. -/
def isNativeToken (tokenAddress : String) : Bool :=
  wrappedNativeTokens.contains (lowerStr tokenAddress)
    || tokenAddress = "BNB"
    || tokenAddress = "ETH"
    || tokenAddress.length < 10
    || tokenAddress = "0x0000000000000000000000000000000000000000"

/-- The low-balance classification of a submission error (server.js v3.9,
lines 716-733): substring matching for "exceeds balance" / "insufficient
funds" over the lower-cased message, reason, short message and provider
info message, or the codes `INSUFFICIENT_FUNDS` / `CALL_EXCEPTION`. -/
def isLowBalanceErr (e : JsError) : Bool :=
  let msg := lowerStr e.message
  let reason := lowerStr e.reason
  let shortMsg := lowerStr e.shortMessage
  let infoMsg := lowerStr e.infoMsg
  containsStr msg "exceeds balance" || containsStr msg "insufficient funds"
    || containsStr reason "exceeds balance" || containsStr reason "insufficient funds"
    || containsStr shortMsg "exceeds balance" || containsStr shortMsg "insufficient funds"
    || containsStr infoMsg "exceeds balance" || containsStr infoMsg "insufficient funds"
    || e.code = "INSUFFICIENT_FUNDS"
    || e.code = "CALL_EXCEPTION"

/-- The sentinel returned by `transferToken` for a failed submission that
is not classified low-balance: `0x_error_` followed by the error code, or
`failed` when the code is empty (falsy). -/
def errorSentinel (e : JsError) : String :=
  "0x_error_" ++ (if e.code = "" then "failed" else e.code)

/-- Nonce resynchronisation after a failed submission (server.js v3.9,
lines 737 and 741): the result of `getTransactionCount` replaces the local
nonce when the query succeeds; a failure of the query itself is swallowed
and leaves the nonce unchanged. -/
def resyncNonce (env : ChainEnv) (st : ExecState) : ExecState :=
  if env.txCountOk st.resyncCalls then
    { st with nonce := env.txCount st.resyncCalls, resyncCalls := st.resyncCalls + 1 }
  else
    { st with resyncCalls := st.resyncCalls + 1 }

/-- The transfer executor `transferToken` of `executeSwapLogic`
(server.js v3.9, lines 647-745).  Steps: skip falsy/non-positive amounts;
query the signer balance of the asset (`getAvailableBalance`, one balance
call, its internal failure already folded to 0 by the source); when the
balance is below the required amount either skip (balance at most 1e-6) or
sweep 99% of the available balance; resolve native vs ERC-20 (querying
decimals for ERC-20, defaulting to 18 on failure); format the amount,
subtract the 0.001 gas buffer for native sends; submit with the current
nonce and post-increment it; on a thrown error, resynchronise the nonce
and return a low-balance skip sentinel or an error sentinel instead of
rethrowing. -/
def transferToken (env : ChainEnv) (st : ExecState) (tokenAddress recipient : String)
    (amount : Option ℚ) : String × ExecState :=
  match amount with
  | none => ("0x_skipped_zero_amount", st)
  | some a =>
    if a ≤ 0 then ("0x_skipped_zero_amount", st)
    else
      let available := env.balance st.balCalls
      let st1 := { st with balCalls := st.balCalls + 1 }
      if available < a ∧ available ≤ 1 / 1000000 then
        ("0x_skipped_low_balance", st1)
      else
        let finalAmount := if available < a then available * (99 / 100) else a
        let isNat := isNativeToken tokenAddress
        let d := if isNat then 18 else (env.decimalsOf st1.decCalls).getD 18
        let st2 := if isNat then st1 else { st1 with decCalls := st1.decCalls + 1 }
        let sendMinor : ℤ :=
          if isNat then
            ⌊max 0 (formatAmountVal (some finalAmount) 18 - 1 / 1000) * 10 ^ 18⌋
          else
            toMinorUnits (some finalAmount) d
        let st3 := { st2 with
          nonce := st2.nonce + 1
          subCalls := st2.subCalls + 1
          submissions := st2.submissions
            ++ [⟨if isNat then "native" else tokenAddress, recipient, sendMinor, st2.nonce⟩] }
        match env.submit st2.subCalls with
        | .ok h => (h, st3)
        | .err e =>
          let st4 := resyncNonce env st3
          if isLowBalanceErr e then ("0x_skipped_low_balance_error", st4)
          else (errorSentinel e, st4)

/-- The immutable swap request body of `POST /api/arbiter/execute-swap`.
Amount and fee fields are the `parseFloat` of the corresponding body
fields; `none` stands for a missing field or NaN. -/
structure SwapRequest where
  buyerAddress : String
  sellerAddress : String
  buyerAmount : Option ℚ
  buyerToken : String
  sellerAmount : Option ℚ
  sellerToken : String
  network : String
  feePercent : Option ℚ
  inviteCode : String

/-- The per-idempotency-key stored swap state: the recorded transfer
identifier strings of the three steps (`none` = JavaScript `null`, step
not yet attempted), the completion flag and the creation timestamp. -/
structure SwapRecord where
  buyerTx : Option String
  sellerTx : Option String
  feesTx : Option String
  completed : Bool
  timestamp : Nat
deriving DecidableEq, Repr

/-- The JSON body answered to the caller (always HTTP 200 in v3.9 apart
from authentication). -/
structure SwapResponse where
  success : Bool
  message : String
  transfer1 : Option String
  transfer2 : Option String
  transfer3 : Option String
  code : Option String
  error : Option String
deriving DecidableEq, Repr

/-- Everything one `executeSwapLogic` run produces: the stored record for
the idempotency key after the run, the HTTP response, the global nonce
counter after the run (`none` = still unsynchronised) and the chain
effects of this run. -/
structure RunResult where
  record : SwapRecord
  response : SwapResponse
  nonceAfter : Option Nat
  chain : ExecState
deriving Repr

/-- A fresh chain-effect state for one run: counters at zero, no
submission attempts, local nonce `n`. -/
def initChain (n : Nat) : ExecState :=
  { nonce := n, balCalls := 0, decCalls := 0, subCalls := 0, resyncCalls := 0,
    submissions := [] }

/-- Chain-effect state of a run that performed no chain interaction. -/
def emptyChain : ExecState := initChain 0

/-- Networks with a configured RPC endpoint (`RPC_URLS`). -/
def supportedNetworks : List String := ["BSC", "Ethereum", "Solana"]

/-- `parseFloat(feePercent) || 10.0` (server.js v3.9, line 751): missing
or NaN or zero fee rates fall back to 10 percent. -/
def finalFeePercentOf (fp : Option ℚ) : ℚ :=
  match fp with
  | none => 10
  | some q => if q = 0 then 10 else q

/-- The per-party fee multiplier `feePercent / 2 / 100`. -/
def feeMultiplierOf (fp : Option ℚ) : ℚ :=
  finalFeePercentOf fp / 2 / 100

/-- `buyerFeeAmt = parseFloat(sellerAmount) * feeMultiplier`. -/
def buyerFeeAmtOf (req : SwapRequest) : Option ℚ :=
  req.sellerAmount.map (· * feeMultiplierOf req.feePercent)

/-- `buyerNet = parseFloat(sellerAmount) - buyerFeeAmt`. -/
def buyerNetOf (req : SwapRequest) : Option ℚ :=
  req.sellerAmount.map (fun a => a - a * feeMultiplierOf req.feePercent)

/-- `sellerFeeAmt = parseFloat(buyerAmount) * feeMultiplier`. -/
def sellerFeeAmtOf (req : SwapRequest) : Option ℚ :=
  req.buyerAmount.map (· * feeMultiplierOf req.feePercent)

/-- `sellerNet = parseFloat(buyerAmount) - sellerFeeAmt`. -/
def sellerNetOf (req : SwapRequest) : Option ℚ :=
  req.buyerAmount.map (fun a => a - a * feeMultiplierOf req.feePercent)

/-- `amountToTreasury = feeAmt * treasuryShare` with `treasuryShare =
0.70` (server.js v3.9, lines 790, 794, 800): the treasury receives 70% of
a fee amount, computed in plain (floating-point) arithmetic with no
flooring; the remaining 30% stays with the signer. -/
def treasuryAmount (fee : ℚ) : ℚ := fee * (70 / 100)

/-- The retry guard of the two primary steps:
`!state.tx || state.tx.startsWith('0x_error')` — a step is re-attempted
when unset or when it recorded an error sentinel. -/
def stepGuard (txField : Option String) : Bool :=
  match txField with
  | none => true
  | some s => strStartsWith s "0x_error"

/-- How a primary-step result is recorded: skip sentinels are collapsed to
`0x_already_done_or_skipped`, everything else stored verbatim. -/
def recordedTx (result : String) : String :=
  if strStartsWith result "0x_skipped" then "0x_already_done_or_skipped" else result

/-- One primary step (buyer or seller) of the stateful execution
(server.js v3.9, lines 766-786): when the retry guard passes, run the
transfer and record its collapsed result; otherwise keep the stored value
and touch nothing. -/
def primaryStep (env : ChainEnv) (st : ExecState) (token dest : String)
    (net : Option ℚ) (txField : Option String) : Option String × ExecState :=
  if stepGuard txField then
    let t := transferToken env st token dest net
    (some (recordedTx t.1), t.2)
  else (txField, st)

/-- The fee-distribution step (server.js v3.9, lines 789-807): starting
from the placeholder `0x_fees_accumulated`, send 70% of the buyer fee in
the seller token, then 70% of the seller fee in the buyer token, to the
treasury; a returned identifier overwrites the placeholder only when it is
a real hash (starts with `0x` but not `0x_`). -/
def feeStep (env : ChainEnv) (req : SwapRequest) (st : ExecState) :
    String × ExecState :=
  let r1 : Option String × ExecState :=
    match buyerFeeAmtOf req with
    | some f =>
      if 0 < f then
        let t := transferToken env st req.sellerToken treasuryAddress
          (some (treasuryAmount f))
        ((if strStartsWith t.1 "0x" && !(strStartsWith t.1 "0x_") then some t.1
          else none), t.2)
      else (none, st)
    | none => (none, st)
  let cur1 := r1.1.getD "0x_fees_accumulated"
  let r2 : Option String × ExecState :=
    match sellerFeeAmtOf req with
    | some f =>
      if 0 < f then
        let t := transferToken env r1.2 req.buyerToken treasuryAddress
          (some (treasuryAmount f))
        ((if strStartsWith t.1 "0x" && !(strStartsWith t.1 "0x_") then some t.1
          else none), t.2)
      else (none, r1.2)
    | none => (none, r1.2)
  (r2.1.getD cur1, r2.2)

/-- The failure response of the outer catch of `executeSwapLogic`
(server.js v3.9, lines 824-833): HTTP 200 with `success:false` and the
stop-retry code. -/
def swapErrorResponse (msg : String) : SwapResponse :=
  { success := false, message := "Swap failed (stopped retry loop)",
    transfer1 := none, transfer2 := none, transfer3 := none,
    code := some "SWAP_ERROR_STOP_RETRY", error := some msg }

/-- Resolution of the global nonce at the start of a run (server.js v3.9,
lines 605-607): keep the current value when synchronised, otherwise query
the network once; `none` when that initial query throws. -/
def resolveNonce (nonce0 : Option Nat) (env : ChainEnv) : Option Nat :=
  match nonce0 with
  | some n => some n
  | none => env.initCount

/-- The body of `executeSwapLogic` after the completed-replay check
(server.js v3.9, lines 598-833), for the record `state0` stored (or just
created) for the idempotency key: reject unsupported networks, resolve the
nonce, then run the three step blocks and mark the record completed.  In
v3.9 `transferToken` never throws, so once the nonce is resolved the run
always reaches the completion mark and answers `success:true`. -/
def executeSwapBody (env : ChainEnv) (req : SwapRequest) (state0 : SwapRecord)
    (nonce0 : Option Nat) : RunResult :=
  if supportedNetworks.contains req.network then
    match resolveNonce nonce0 env with
    | none =>
      { record := state0, response := swapErrorResponse "nonce sync failed",
        nonceAfter := none, chain := emptyChain }
    | some n =>
      let b := primaryStep env (initChain n) req.sellerToken req.buyerAddress
        (buyerNetOf req) state0.buyerTx
      let state1 := { state0 with buyerTx := b.1 }
      let s := primaryStep env b.2 req.buyerToken req.sellerAddress
        (sellerNetOf req) state1.sellerTx
      let state2 := { state1 with sellerTx := s.1 }
      let f : Option String × ExecState :=
        if state2.feesTx.isNone then
          let fr := feeStep env req s.2
          (some fr.1, fr.2)
        else (state2.feesTx, s.2)
      let state3 := { state2 with feesTx := f.1 }
      let state4 := { state3 with completed := true }
      { record := state4,
        response :=
          { success := true, message := "Swap executed successfully",
            transfer1 := state4.buyerTx, transfer2 := state4.sellerTx,
            transfer3 := state4.feesTx, code := none, error := none },
        nonceAfter := some f.2.nonce,
        chain := f.2 }
  else
    { record := state0,
      response := swapErrorResponse ("Network " ++ req.network ++ " not supported"),
      nonceAfter := nonce0, chain := emptyChain }

/-- A freshly initialised swap record (server.js v3.9, line 591). -/
def freshRecord (now : Nat) : SwapRecord :=
  { buyerTx := none, sellerTx := none, feesTx := none, completed := false,
    timestamp := now }

/-- The cached-replay response for a completed record (server.js v3.9,
lines 576-588). -/
def replayResponse (s : SwapRecord) : SwapResponse :=
  { success := true, message := "Swap already completed",
    transfer1 := s.buyerTx, transfer2 := s.sellerTx, transfer3 := s.feesTx,
    code := none, error := none }

/-- `executeSwapLogic` (server.js v3.9, lines 564-834): on a completed
stored record, answer the cached result with no chain interaction;
otherwise initialise the record if absent and run the body. -/
def executeSwapLogic (env : ChainEnv) (req : SwapRequest)
    (stored : Option SwapRecord) (nonce0 : Option Nat) (now : Nat) : RunResult :=
  match stored with
  | some s =>
    if s.completed then
      { record := s, response := replayResponse s, nonceAfter := nonce0,
        chain := emptyChain }
    else executeSwapBody env req s nonce0
  | none => executeSwapBody env req (freshRecord now) nonce0

/-- Outcome of running one queued task to completion: the handler answered
normally, or an exception escaped it (carrying the already-sent response
when `headersSent` was true at catch time). -/
inductive TaskOutcome where
  | done (resp : SwapResponse)
  | thrown (sent : Option SwapResponse) (msg : String)

/-- The structured failure the queue catch block answers for a task whose
exception escaped before any response was sent (server.js v3.9,
lines 543-549). -/
def queueErrorResponse (msg : String) : SwapResponse :=
  { success := false, message := "Queue processing failed (stopped retry)",
    transfer1 := none, transfer2 := none, transfer3 := none,
    code := some "QUEUE_ERROR", error := some msg }

/-- The response a task ends up with after the try/catch of `processQueue`
(server.js v3.9, lines 532-550): the normal response, the already-sent
response, or the structured `QUEUE_ERROR` failure. -/
def handleTask : TaskOutcome → SwapResponse
  | .done r => r
  | .thrown (some r) _ => r
  | .thrown none msg => queueErrorResponse msg

/-- Queue-loop state: pending tasks, the `isProcessing` busy flag and the
responses delivered so far. -/
structure QueueState where
  tasks : List TaskOutcome
  busy : Bool
  responses : List SwapResponse

/-- The drain loop of `processQueue` (server.js v3.9, lines 526-558): a
re-entrant call while busy returns immediately; otherwise each task is
handled under the busy flag, the `finally` clears the flag, and
`setImmediate(processQueue)` continues with the rest. -/
def processQueueRun : List TaskOutcome → Bool → List SwapResponse → QueueState
  | tasks, true, acc => ⟨tasks, true, acc⟩
  | [], false, acc => ⟨[], false, acc⟩
  | t :: rest, false, acc => processQueueRun rest false (acc ++ [handleTask t])

/-- A benign chain environment: large balances, 18 decimals, every
submission confirmed with a distinct hash, resynchronisation available. -/
def okEnv : ChainEnv :=
  { balance := fun _ => 1000000
    decimalsOf := fun _ => some 18
    submit := fun i =>
      match i with
      | 0 => .ok "0xaaa111"
      | 1 => .ok "0xbbb222"
      | 2 => .ok "0xccc333"
      | _ => .ok "0xddd444"
    txCount := fun _ => 0
    txCountOk := fun _ => true
    initCount := some 0 }

/-- An environment whose every submission throws a fatal (non-low-balance)
error with code `X`; resynchronisation queries succeed and report 7. -/
def fatalEnv : ChainEnv :=
  { balance := fun _ => 1000000
    decimalsOf := fun _ => some 18
    submit := fun _ => .err ⟨"boom", "", "", "X", ""⟩
    txCount := fun _ => 7
    txCountOk := fun _ => true
    initCount := some 7 }

/-- An environment where the signer holds 50 units of every asset and
submissions succeed: used to exercise the sweep branch. -/
def sweepEnv : ChainEnv :=
  { balance := fun _ => 50
    decimalsOf := fun _ => some 18
    submit := fun _ => .ok "0xswp999"
    txCount := fun _ => 0
    txCountOk := fun _ => true
    initCount := some 0 }

/-- An environment where submissions throw a fatal error with code `X` and
the resynchronisation query itself also fails (is swallowed); the
authoritative network count is 5. -/
def staleEnv : ChainEnv :=
  { balance := fun _ => 1000000
    decimalsOf := fun _ => some 18
    submit := fun _ => .err ⟨"boom", "", "", "X", ""⟩
    txCount := fun _ => 5
    txCountOk := fun _ => false
    initCount := some 9 }

/-- An environment where the first submission (the buyer transfer) throws
a fatal error and all later ones succeed. -/
def buyerFailsEnv : ChainEnv :=
  { balance := fun _ => 1000000
    decimalsOf := fun _ => some 18
    submit := fun i =>
      match i with
      | 0 => .err ⟨"tx failed", "", "", "X", ""⟩
      | 1 => .ok "0xbbb222"
      | 2 => .ok "0xccc333"
      | _ => .ok "0xddd444"
    txCount := fun _ => 5
    txCountOk := fun _ => true
    initCount := some 5 }

/-- The standard concrete request of the spec examples: fee 10 percent,
buyer gross 100, seller gross 200, two plain ERC-20 token addresses on
BSC. -/
def stdReq : SwapRequest :=
  { buyerAddress := "0xbuyeraddr1234567890"
    sellerAddress := "0xselleraddr123456789"
    buyerAmount := some 100
    buyerToken := "0xbuyertoken12345678"
    sellerAmount := some 200
    sellerToken := "0xsellertoken1234567"
    network := "BSC"
    feePercent := some 10
    inviteCode := "INV-1" }

/-- A completed stored record with three real transaction hashes. -/
def doneRecord : SwapRecord :=
  { buyerTx := some "0xaaa111", sellerTx := some "0xbbb222",
    feesTx := some "0xccc333", completed := true, timestamp := 42 }

/-- An environment where the signer holds nothing: every balance query
reports 0. -/
def emptyBalEnv : ChainEnv :=
  { balance := fun _ => 0
    decimalsOf := fun _ => some 18
    submit := fun _ => .ok "0xnever"
    txCount := fun _ => 0
    txCountOk := fun _ => true
    initCount := some 0 }

/-- Shared helper lemma: `transferToken` performs exactly one balance
query whenever the amount is positive, in every branch. -/
theorem transferToken_balCalls (env : ChainEnv) (st : ExecState)
    (tok dest : String) (a : ℚ) (ha : 0 < a) :
    ((transferToken env st tok dest (some a)).2).balCalls = st.balCalls + 1 := by
  unfold transferToken
  simp only [if_neg (not_le.mpr ha)]
  split
  · rfl
  · split <;> simp only [resyncNonce] <;> (repeat' split) <;> rfl

/-- C2: for every idempotency key whose stored swap state is marked
completed, calling execute-swap again with the same key returns the stored
transaction identifiers verbatim (`replayResponse` carries `buyerTx`,
`sellerTx`, `feesTx` unchanged) and performs zero additional chain
interactions: the chain effect state is empty (no balance query, no
submission) and the nonce counter is returned unchanged. -/
theorem c2_completed_replay (env : ChainEnv) (req : SwapRequest)
    (s : SwapRecord) (nonce0 : Option Nat) (now : Nat)
    (h : s.completed = true) :
    executeSwapLogic env req (some s) nonce0 now =
      { record := s, response := replayResponse s, nonceAfter := nonce0,
        chain := emptyChain } := by
  simp [executeSwapLogic, h]

/-- Witness for C2 at a concrete completed record. -/
theorem c2_completed_replay_witness :
    doneRecord.completed = true ∧
    executeSwapLogic okEnv stdReq (some doneRecord) (some 3) 99 =
      { record := doneRecord, response := replayResponse doneRecord,
        nonceAfter := some 3, chain := emptyChain } :=
  ⟨rfl, c2_completed_replay okEnv stdReq doneRecord (some 3) 99 rfl⟩

/-- C5: with feePercent 10, buyerAmount 100 and sellerAmount 200 the fee
computation yields buyerNet 190 (buyer fee 10) and sellerNet 95 (seller
fee 5); the values are functions of exactly these request fields, so
recomputing them from the same inputs on a retry yields the same values. -/
theorem c5_fee_determinism (req : SwapRequest) (hf : req.feePercent = some 10)
    (hb : req.buyerAmount = some 100) (hs : req.sellerAmount = some 200) :
    buyerFeeAmtOf req = some 10 ∧ buyerNetOf req = some 190 ∧
      sellerFeeAmtOf req = some 5 ∧ sellerNetOf req = some 95 := by
  simp only [buyerFeeAmtOf, buyerNetOf, sellerFeeAmtOf, sellerNetOf,
    feeMultiplierOf, finalFeePercentOf, hf, hb, hs, Option.map_some]
  norm_num

/-- Witness for C5 at the concrete standard request. -/
theorem c5_fee_determinism_witness :
    stdReq.feePercent = some 10 ∧ stdReq.buyerAmount = some 100 ∧
      stdReq.sellerAmount = some 200 ∧
      (buyerFeeAmtOf stdReq = some 10 ∧ buyerNetOf stdReq = some 190 ∧
        sellerFeeAmtOf stdReq = some 5 ∧ sellerNetOf stdReq = some 95) :=
  ⟨rfl, rfl, rfl, c5_fee_determinism stdReq rfl rfl rfl⟩

/-- C7: the queue loop delivers exactly one response per queued task in
arrival order, an exception that escaped a task before it answered is
converted to the structured `QUEUE_ERROR` failure (it never halts the
loop: all later tasks are still processed), and the busy flag is cleared
when the loop finishes. -/
theorem c7_queue_exception_safety (tasks : List TaskOutcome)
    (acc : List SwapResponse) :
    processQueueRun tasks false acc =
        ⟨[], false, acc ++ tasks.map handleTask⟩ ∧
      (∀ m, handleTask (.thrown none m) = queueErrorResponse m) := by
  constructor
  · induction tasks generalizing acc with
    | nil => simp [processQueueRun]
    | cons t rest ih =>
        simp [processQueueRun, ih]
  · intro m
    rfl

/-- C10: a transfer request whose amount is absent (missing/NaN), zero or
negative returns the sentinel `0x_skipped_zero_amount` at once, with the
effect state untouched: no balance query, no submission, nonce unchanged
(and the caller-owned swap record is not touched by the helper at all). -/
theorem c10_zero_amount_skip (env : ChainEnv) (st : ExecState)
    (tok dest : String) (amount : Option ℚ)
    (h : amount = none ∨ ∃ a, amount = some a ∧ a ≤ 0) :
    transferToken env st tok dest amount = ("0x_skipped_zero_amount", st) := by
  rcases h with h | ⟨a, ha, hle⟩
  · subst h; rfl
  · subst ha; simp [transferToken, hle]

/-- Witness for C10 at amount zero. -/
theorem c10_zero_amount_skip_witness :
    ((some (0 : ℚ)) = none ∨ ∃ a, (some (0 : ℚ)) = some a ∧ a ≤ 0) ∧
      transferToken okEnv (initChain 5) "0xbuyertoken12345678" "0xdest567890"
          (some 0) =
        ("0x_skipped_zero_amount", initChain 5) :=
  ⟨Or.inr ⟨0, rfl, le_refl 0⟩,
    c10_zero_amount_skip okEnv (initChain 5) "0xbuyertoken12345678"
      "0xdest567890" (some 0) (Or.inr ⟨0, rfl, le_refl 0⟩)⟩

unseal Rat.mul Rat.add Rat.sub Rat.inv in
/-- C1 is false of the code: with a tracked asset balance of 50 against a
required amount of 100 (balance below the requirement but above the 1e-6
guard), the transfer executor does not return a waiting outcome and does
not hold off: it sweeps, submitting a transaction for 99% of the available
balance (49.5 tokens = 49500000000000000000 minor units) and consuming a
nonce. -/
theorem c1_balance_gating_counterexample :
    sweepEnv.balance 0 < 100 ∧
      (transferToken sweepEnv (initChain 7) "0xsellertoken1234567"
          "0xbuyeraddr1234567890" (some 100)).1 = "0xswp999" ∧
      ((transferToken sweepEnv (initChain 7) "0xsellertoken1234567"
          "0xbuyeraddr1234567890" (some 100)).2).nonce = 8 ∧
      ((transferToken sweepEnv (initChain 7) "0xsellertoken1234567"
          "0xbuyeraddr1234567890" (some 100)).2).submissions =
        [⟨"0xsellertoken1234567", "0xbuyeraddr1234567890",
          49500000000000000000, 7⟩] := by
  decide

/-- C1 amended: when the tracked balance of the asset being sent is below
the required net amount, the executor returns the low-balance skip
sentinel with no submission and an unchanged nonce only when the balance
is also at most 1e-6; when the balance is larger but still insufficient it
performs a submission attempt (for 99% of the available balance) in that
same call. -/
theorem c1_balance_gating_amended (env : ChainEnv) (st : ExecState)
    (tok dest : String) (a : ℚ) (ha : 0 < a)
    (hlow : env.balance st.balCalls < a) :
    (env.balance st.balCalls ≤ 1 / 1000000 →
      transferToken env st tok dest (some a) =
        ("0x_skipped_low_balance", { st with balCalls := st.balCalls + 1 })) ∧
      (1 / 1000000 < env.balance st.balCalls →
        ((transferToken env st tok dest (some a)).2).subCalls = st.subCalls + 1 ∧
          ((transferToken env st tok dest (some a)).2).submissions.length =
            st.submissions.length + 1) := by
  constructor
  · intro hle
    unfold transferToken
    simp only [if_neg (not_le.mpr ha), if_pos (And.intro hlow hle)]
  · intro hgt
    have hcond : ¬(env.balance st.balCalls < a ∧
        env.balance st.balCalls ≤ 1 / 1000000) := by
      rintro ⟨_, h2⟩
      exact absurd h2 (not_le.mpr hgt)
    unfold transferToken
    simp only [if_neg (not_le.mpr ha), if_neg hcond]
    constructor <;> (split <;> simp [resyncNonce] <;> (repeat' split) <;> simp)

unseal Rat.mul Rat.add Rat.sub Rat.inv in
/-- Witness for the amended C1: the signer holds nothing, so the transfer
skips without touching the chain state. -/
theorem c1_balance_gating_amended_witness :
    (0 : ℚ) < 100 ∧ emptyBalEnv.balance 0 < 100 ∧
      (emptyBalEnv.balance 0 ≤ 1 / 1000000 →
        transferToken emptyBalEnv (initChain 7) "0xsellertoken1234567"
            "0xbuyeraddr1234567890" (some 100) =
          ("0x_skipped_low_balance",
            { initChain 7 with balCalls := 0 + 1 })) := by
  refine ⟨by norm_num, by decide, ?_⟩
  exact (c1_balance_gating_amended emptyBalEnv (initChain 7)
    "0xsellertoken1234567" "0xbuyeraddr1234567890" 100 (by norm_num)
    (by decide)).1

unseal Rat.mul Rat.add Rat.sub Rat.inv in
/-- C4 is false of the code: after a failed submission the code only
attempts resynchronisation; when the `getTransactionCount` query itself
fails (its exception is swallowed), the local nonce keeps its incremented
value (10) instead of the authoritative network count (5), violating "for
every error kind, resynchronized ... before any further transfer
attempt". -/
theorem c4_nonce_resync_counterexample :
    staleEnv.submit 0 = .err ⟨"boom", "", "", "X", ""⟩ ∧
      (transferToken staleEnv (initChain 9) "0xsellertoken1234567"
          "0xdest567890" (some 100)).1 = "0x_error_X" ∧
      ((transferToken staleEnv (initChain 9) "0xsellertoken1234567"
          "0xdest567890" (some 100)).2).resyncCalls = 1 ∧
      staleEnv.txCount 0 = 5 ∧
      ((transferToken staleEnv (initChain 9) "0xsellertoken1234567"
          "0xdest567890" (some 100)).2).nonce = 10 ∧
      ¬((transferToken staleEnv (initChain 9) "0xsellertoken1234567"
          "0xdest567890" (some 100)).2).nonce = staleEnv.txCount 0 := by
  decide

/-- C4 amended: on the funded path (amount positive, balance sufficient)
the local nonce increases by exactly one per submission attempt and the
attempt is logged with the previous nonce value (no reuse within the run);
after a submission failure the nonce is reset to the authoritative network
transaction count whenever the resynchronisation query succeeds, and only
when that query itself fails does the incremented value survive. -/
theorem c4_nonce_discipline (env : ChainEnv) (st : ExecState)
    (tok dest : String) (a : ℚ) (ha : 0 < a)
    (hbal : a ≤ env.balance st.balCalls) :
    (∀ h, env.submit st.subCalls = .ok h →
        ((transferToken env st tok dest (some a)).2).nonce = st.nonce + 1 ∧
          ∃ sub, ((transferToken env st tok dest (some a)).2).submissions
              = st.submissions ++ [sub] ∧ sub.nonceUsed = st.nonce) ∧
      (∀ e, env.submit st.subCalls = .err e →
        (env.txCountOk st.resyncCalls = true →
          ((transferToken env st tok dest (some a)).2).nonce
            = env.txCount st.resyncCalls) ∧
          (env.txCountOk st.resyncCalls = false →
            ((transferToken env st tok dest (some a)).2).nonce
              = st.nonce + 1)) := by
  have hcond : ¬(env.balance st.balCalls < a ∧
      env.balance st.balCalls ≤ 1 / 1000000) := by
    rintro ⟨h1, _⟩
    exact absurd hbal (not_le.mpr h1)
  unfold transferToken
  simp only [if_neg (not_le.mpr ha), if_neg hcond]
  cases hn : isNativeToken tok <;>
    simp only [hn, Bool.false_eq_true, if_true, if_false] <;>
    constructor
  · intro h hok
    simp [hok]
  · intro e herr
    simp [herr, resyncNonce]
    cases hrs : env.txCountOk st.resyncCalls <;> simp [hrs] <;> split <;> rfl
  · intro h hok
    simp [hok]
  · intro e herr
    simp [herr, resyncNonce]
    cases hrs : env.txCountOk st.resyncCalls <;> simp [hrs] <;> split <;> rfl

unseal Rat.mul Rat.add Rat.sub Rat.inv in
/-- Witness for the amended C4: a confirmed submission increments the
nonce from 7 to 8. -/
theorem c4_nonce_discipline_witness :
    (0 : ℚ) < 100 ∧ (100 : ℚ) ≤ okEnv.balance 0 ∧
      ((transferToken okEnv (initChain 7) "0xsellertoken1234567"
          "0xdest567890" (some 100)).2).nonce = 7 + 1 :=
  ⟨by norm_num, by decide,
    ((c4_nonce_discipline okEnv (initChain 7) "0xsellertoken1234567"
        "0xdest567890" 100 (by norm_num) (by decide)).1 "0xaaa111" rfl).1⟩

unseal Rat.mul Rat.add Rat.sub Rat.inv in
/-- C6 is false of the code: the amount the code sends to the treasury for
a fee of 5 units is `5 * 0.70 = 3.5` units — computed in plain (not
integer minor-unit) arithmetic and not equal to the claimed
`floor(5 * 7000 / 10000) = 3`. -/
theorem c6_treasury_floor_counterexample :
    treasuryAmount 5 = 7 / 2 ∧
      (⌊(5 * 7000 / 10000 : ℚ)⌋ : ℤ) = 3 ∧
      ¬treasuryAmount 5 = ((⌊(5 * 7000 / 10000 : ℚ)⌋ : ℤ) : ℚ) := by
  refine ⟨by decide, by decide, by decide⟩

/-- C6 amended: the treasury share is `fee * 0.70` computed exactly in the
fee amount units with no flooring: it always equals 7/10 of the fee, the
signer retains the remaining 3/10, and the share never exceeds the fee;
being a pure function of the fee, the computation is reproducible on
retry. -/
theorem c6_treasury_share_amended (fee : ℚ) (hf : 0 ≤ fee) :
    treasuryAmount fee = 7 * fee / 10 ∧
      treasuryAmount fee + 3 * fee / 10 = fee ∧
      treasuryAmount fee ≤ fee := by
  unfold treasuryAmount
  refine ⟨by ring, by ring, by linarith⟩

/-- Witness for the amended C6 at fee 5. -/
theorem c6_treasury_share_amended_witness :
    (0 : ℚ) ≤ 5 ∧
      (treasuryAmount 5 = 7 * 5 / 10 ∧ treasuryAmount 5 + 3 * 5 / 10 = 5 ∧
        treasuryAmount 5 ≤ 5) :=
  ⟨by norm_num, c6_treasury_share_amended 5 (by norm_num)⟩

unseal Rat.mul Rat.add Rat.sub Rat.inv in
/-- C8 is false of the code: an amount written in scientific notation is
not rejected as invalid input; `parseFloat` accepts `"1e-7"` and the
conversion pipeline turns it into 100000000000 minor units at 18 decimals
instead of failing. -/
theorem c8_scientific_notation_counterexample :
    jsParseFloat "1e-7" = some (1 / 10000000) ∧
      toMinorUnitsOfString "1e-7" 18 = some 100000000000 ∧
      ¬toMinorUnitsOfString "1e-7" 18 = none := by
  refine ⟨by decide, by decide, by decide⟩

unseal Rat.mul Rat.add Rat.sub Rat.inv in
/-- C8 amended: for a non-negative amount exactly representable within
precision + 18 decimal places (so the `toFixed` rendering is exact, which
holds in particular for every value the fee pipeline produces from
ordinary inputs), the conversion truncates towards zero at the asset
precision and never rounds up; an amount expressed in scientific notation
is accepted and converted to minor units rather than rejected. -/
theorem c8_truncation_amended (q : ℚ) (d : Nat) (hq : 0 ≤ q)
    (hex : ∃ m : ℤ, q * 10 ^ (d + 18) = m) :
    formatAmountVal (some q) d = ratTruncAt q d ∧
      ratTruncAt q d ≤ q ∧
      ¬jsParseFloat "1e-7" = none := by
  obtain ⟨m, hm⟩ := hex
  refine ⟨?_, ?_, by decide⟩
  · unfold formatAmountVal
    by_cases h0 : q = 0
    · subst h0
      simp [ratTruncAt]
    · simp only [h0, if_false]
      have hfix : jsToFixed q (d + 18) = q := by
        unfold jsToFixed
        rw [hm]
        have hfl : ⌊(m : ℚ) + 1 / 2⌋ = m := by
          rw [add_comm, Int.floor_add_int]
          norm_num
        rw [hfl]
        have hpow : ((10 : ℚ) ^ (d + 18)) ≠ 0 := by positivity
        field_simp at hm ⊢
        linarith [hm]
      rw [hfix]
  · unfold ratTruncAt
    rw [if_pos hq]
    rw [div_le_iff₀ (by positivity : (0 : ℚ) < 10 ^ d)]
    exact Int.floor_le _

unseal Rat.mul Rat.add Rat.sub Rat.inv in
/-- Witness for the amended C8 at amount 0.123 with 2-decimal precision:
the conversion truncates 0.123 down to 0.12. -/
theorem c8_truncation_amended_witness :
    (0 : ℚ) ≤ 123 / 1000 ∧
      ((123 / 1000 : ℚ) * 10 ^ (2 + 18) = ((12300000000000000000 : ℤ) : ℚ)) ∧
      (formatAmountVal (some (123 / 1000)) 2 = ratTruncAt (123 / 1000) 2 ∧
        ratTruncAt (123 / 1000) 2 ≤ 123 / 1000 ∧
        ¬jsParseFloat "1e-7" = none) :=
  ⟨by norm_num, by norm_num,
    c8_truncation_amended (123 / 1000) 2 (by norm_num)
      ⟨12300000000000000000, by norm_num⟩⟩

/-- Helper: a primary step over an unset field with a positive net amount
performs exactly one balance query. -/
theorem primaryStep_balCalls_none (env : ChainEnv) (st : ExecState)
    (token dest : String) (v : ℚ) (hv : 0 < v) :
    ((primaryStep env st token dest (some v) none).2).balCalls
      = st.balCalls + 1 := by
  unfold primaryStep
  simp only [stepGuard, if_true]
  exact transferToken_balCalls env st token dest v hv

/-- Helper: the fee step with two positive fee amounts performs exactly
two balance queries. -/
theorem feeStep_balCalls (env : ChainEnv) (req : SwapRequest) (st : ExecState)
    (f g : ℚ) (hbf : buyerFeeAmtOf req = some f) (hf : 0 < f)
    (hsf : sellerFeeAmtOf req = some g) (hg : 0 < g) :
    ((feeStep env req st).2).balCalls = st.balCalls + 2 := by
  unfold feeStep
  simp only [hbf, hsf, if_pos hf, if_pos hg]
  have h1 : 0 < treasuryAmount f := by
    unfold treasuryAmount
    positivity
  have h2 : 0 < treasuryAmount g := by
    unfold treasuryAmount
    positivity
  rw [transferToken_balCalls _ _ _ _ _ h2, transferToken_balCalls _ _ _ _ _ h1]

/-- Helper: the completed-replay branch of `executeSwapLogic`. -/
theorem executeSwapLogic_replay (env : ChainEnv) (req : SwapRequest)
    (s : SwapRecord) (nonce0 : Option Nat) (now : Nat)
    (h : s.completed = true) :
    executeSwapLogic env req (some s) nonce0 now =
      { record := s, response := replayResponse s, nonceAfter := nonce0,
        chain := emptyChain } := by
  simp [executeSwapLogic, h]

/-- Helper: with a supported network and a resolvable nonce, the body of
`executeSwapLogic` always marks the record completed and answers success,
echoing the record fields as the three transaction identifiers. -/
theorem executeSwapBody_completes (env : ChainEnv) (req : SwapRequest)
    (state0 : SwapRecord) (nonce0 : Option Nat) (n : Nat)
    (hnet : supportedNetworks.contains req.network = true)
    (hres : resolveNonce nonce0 env = some n) :
    ((executeSwapBody env req state0 nonce0).record).completed = true ∧
      ((executeSwapBody env req state0 nonce0).response).success = true ∧
      (executeSwapBody env req state0 nonce0).response.transfer1
        = ((executeSwapBody env req state0 nonce0).record).buyerTx ∧
      (executeSwapBody env req state0 nonce0).response.transfer2
        = ((executeSwapBody env req state0 nonce0).record).sellerTx ∧
      (executeSwapBody env req state0 nonce0).response.transfer3
        = ((executeSwapBody env req state0 nonce0).record).feesTx := by
  unfold executeSwapBody
  rw [if_pos hnet, hres]
  exact ⟨rfl, rfl, rfl, rfl, rfl⟩

unseal Rat.mul Rat.add Rat.sub Rat.inv in
/-- C3 is false of the code: in a fresh run where the buyer transfer fails
with a fatal error (recorded as the sentinel `0x_error_X`, not a terminal
success), the same run still submits the two treasury fee transfers. -/
theorem c3_fee_after_primaries_counterexample :
    ((executeSwapLogic buyerFailsEnv stdReq none (some 5) 0).record).buyerTx
        = some "0x_error_X" ∧
      (((executeSwapLogic buyerFailsEnv stdReq none (some 5) 0).chain).submissions.filter
          (fun sub => sub.recipient = treasuryAddress)).length = 2 ∧
      ((executeSwapLogic buyerFailsEnv stdReq none (some 5) 0).record).feesTx
        = some "0xddd444" := by
  refine ⟨by decide, by decide, by decide⟩

/-- C3 amended: the fee step is not gated on primary success: in every
fresh run over a supported network with positive amounts and a fee rate
strictly between 0 and 100 percent, whatever the submission outcomes of
the buyer and seller steps (including failures), the run still executes
the fee step (all four balance-checked transfer calls happen: buyer,
seller and the two treasury fee transfers), sets a fee identifier and
marks the swap completed. -/
theorem c3_fee_step_unconditional (env : ChainEnv) (req : SwapRequest)
    (n now : Nat) (A B : ℚ)
    (hnet : supportedNetworks.contains req.network = true)
    (hA : req.buyerAmount = some A) (hA0 : 0 < A)
    (hB : req.sellerAmount = some B) (hB0 : 0 < B)
    (hm0 : 0 < feeMultiplierOf req.feePercent)
    (hm1 : feeMultiplierOf req.feePercent < 1) :
    ((executeSwapLogic env req none (some n) now).chain).balCalls = 4 ∧
      ((executeSwapLogic env req none (some n) now).record).feesTx.isSome
        = true ∧
      ((executeSwapLogic env req none (some n) now).record).completed
        = true := by
  have hmB : 0 < B - B * feeMultiplierOf req.feePercent := by nlinarith
  have hmA : 0 < A - A * feeMultiplierOf req.feePercent := by nlinarith
  have hbn : buyerNetOf req = some (B - B * feeMultiplierOf req.feePercent) := by
    simp [buyerNetOf, hB]
  have hsn : sellerNetOf req = some (A - A * feeMultiplierOf req.feePercent) := by
    simp [sellerNetOf, hA]
  have hbf : buyerFeeAmtOf req = some (B * feeMultiplierOf req.feePercent) := by
    simp [buyerFeeAmtOf, hB]
  have hsf : sellerFeeAmtOf req = some (A * feeMultiplierOf req.feePercent) := by
    simp [sellerFeeAmtOf, hA]
  unfold executeSwapLogic executeSwapBody
  rw [if_pos hnet]
  refine ⟨?_, rfl, rfl⟩
  dsimp only [resolveNonce, freshRecord]
  rw [hbn, hsn]
  simp only [Option.isNone_none, if_true]
  rw [feeStep_balCalls env req _ _ _ hbf (mul_pos hB0 hm0) hsf (mul_pos hA0 hm0)]
  rw [primaryStep_balCalls_none _ _ _ _ _ hmA]
  rw [primaryStep_balCalls_none _ _ _ _ _ hmB]
  rfl

/-- Witness for the amended C3: a run in which every submission throws a
fatal error still performs all four transfer calls and completes. -/
theorem c3_fee_step_unconditional_witness :
    supportedNetworks.contains stdReq.network = true ∧
      stdReq.buyerAmount = some 100 ∧ stdReq.sellerAmount = some 200 ∧
      (((executeSwapLogic fatalEnv stdReq none (some 7) 0).chain).balCalls = 4 ∧
        ((executeSwapLogic fatalEnv stdReq none (some 7) 0).record).feesTx.isSome
          = true ∧
        ((executeSwapLogic fatalEnv stdReq none (some 7) 0).record).completed
          = true) :=
  ⟨rfl, rfl, rfl,
    c3_fee_step_unconditional fatalEnv stdReq 7 0 100 200 rfl rfl (by norm_num)
      rfl (by norm_num) (by norm_num [feeMultiplierOf, finalFeePercentOf, stdReq])
      (by norm_num [feeMultiplierOf, finalFeePercentOf, stdReq])⟩

/-- C9: whenever a run reaches the step blocks (stored state absent or not
completed, supported network, resolvable nonce), it executes them without
any thrown exception (in v3.9 `transferToken` converts every failure to a
sentinel string), so the stored record is marked completed and the
response reports success with exactly the recorded step strings — whatever
they are, sentinel or hash; every later replay for that key then returns
those stored strings as the cached identifiers with no chain
interaction. -/
theorem c9_sentinel_completion (env : ChainEnv) (req : SwapRequest)
    (stored : Option SwapRecord) (nonce0 : Option Nat) (now n : Nat)
    (hstored : ∀ s, stored = some s → s.completed = false)
    (hnet : supportedNetworks.contains req.network = true)
    (hres : resolveNonce nonce0 env = some n) :
    ((executeSwapLogic env req stored nonce0 now).record).completed = true ∧
      ((executeSwapLogic env req stored nonce0 now).response).success = true ∧
      (executeSwapLogic env req stored nonce0 now).response.transfer1
        = ((executeSwapLogic env req stored nonce0 now).record).buyerTx ∧
      (executeSwapLogic env req stored nonce0 now).response.transfer2
        = ((executeSwapLogic env req stored nonce0 now).record).sellerTx ∧
      (executeSwapLogic env req stored nonce0 now).response.transfer3
        = ((executeSwapLogic env req stored nonce0 now).record).feesTx ∧
      (∀ env2 req2 nonce2 now2,
        executeSwapLogic env2 req2
            (some (executeSwapLogic env req stored nonce0 now).record) nonce2
            now2
          = { record := (executeSwapLogic env req stored nonce0 now).record,
              response :=
                replayResponse (executeSwapLogic env req stored nonce0 now).record,
              nonceAfter := nonce2, chain := emptyChain }) := by
  have hbody : executeSwapLogic env req stored nonce0 now
      = executeSwapBody env req (stored.getD (freshRecord now)) nonce0 := by
    cases stored with
    | none => rfl
    | some s =>
        have hc := hstored s rfl
        simp [executeSwapLogic, hc]
  rw [hbody]
  obtain ⟨h1, h2, h3, h4, h5⟩ :=
    executeSwapBody_completes env req (stored.getD (freshRecord now)) nonce0 n
      hnet hres
  exact ⟨h1, h2, h3, h4, h5,
    fun env2 req2 nonce2 now2 =>
      executeSwapLogic_replay env2 req2 _ nonce2 now2 h1⟩

unseal Rat.mul Rat.add Rat.sub Rat.inv in
/-- Witness for C9: under an environment where every submission throws
fatally, the run records the error sentinel for the buyer step, still
completes with success, and the replay returns the sentinel-bearing record
verbatim with no chain interaction. -/
theorem c9_sentinel_completion_witness :
    supportedNetworks.contains stdReq.network = true ∧
      resolveNonce (some 7) fatalEnv = some 7 ∧
      ((executeSwapLogic fatalEnv stdReq none (some 7) 0).record).buyerTx
        = some "0x_error_X" ∧
      (((executeSwapLogic fatalEnv stdReq none (some 7) 0).record).completed
          = true ∧
        ((executeSwapLogic fatalEnv stdReq none (some 7) 0).response).success
          = true) ∧
      executeSwapLogic okEnv stdReq
          (some (executeSwapLogic fatalEnv stdReq none (some 7) 0).record)
          (some 9) 1
        = { record := (executeSwapLogic fatalEnv stdReq none (some 7) 0).record,
            response :=
              replayResponse
                (executeSwapLogic fatalEnv stdReq none (some 7) 0).record,
            nonceAfter := some 9, chain := emptyChain } := by
  have h := c9_sentinel_completion fatalEnv stdReq none (some 7) 0 7
    (fun s hs => by cases hs) rfl rfl
  exact ⟨rfl, rfl, by decide, ⟨h.1, h.2.1⟩, h.2.2.2.2.2 okEnv stdReq (some 9) 1⟩

/-- Witness for C7 at a concrete two-task queue whose first task throws
before answering: the loop still answers both tasks and ends idle. -/
theorem c7_queue_exception_safety_witness :
    processQueueRun [.thrown none "boom", .done (queueErrorResponse "x")] false []
        = ⟨[], false,
            [queueErrorResponse "boom", queueErrorResponse "x"]⟩ ∧
      handleTask (.thrown none "boom") = queueErrorResponse "boom" :=
  ⟨((c7_queue_exception_safety
      [.thrown none "boom", .done (queueErrorResponse "x")] []).1),
    (c7_queue_exception_safety [] []).2 "boom"⟩
